import Mathlib

/-!
Verification of the `McpServerProxy` relay component
(`packages/mcp-proxy/src/mcp-server-proxy.ts`).

The class is embedded as a pure state-transition system.  Mutable fields of
the class become fields of `ProxyState`; each method becomes a function from
the state (plus the externally observed inputs it reads, such as the
WebSocket `readyState` or the outcome of a `send`) to the new state together
with a trace of externally visible effects (`Event`s: send attempts, close
attempts, log lines that the specification cares about).

Asynchronous continuations in the source (`.catch` handlers and the
`.finally` close callback in `connect`) are embedded as separate functions:
the method itself returns the state reached synchronously, and the
continuation is applied later to whatever state is current when the promise
settles, exactly as the JavaScript event loop does.

WebSocket handles and transports are identified by natural numbers; the
readiness of a handle at the moment of a call is supplied as a function
`rs : Nat -> Nat` (0 CONNECTING, 1 OPEN, 2 CLOSING, 3 CLOSED, matching the
numeric comparisons in the source).  `JSON.parse` and `TextDecoder.decode`
are external library calls and are passed in as function parameters.
-/

namespace McpProxy

/-- A JSON-RPC shaped message (`JSONRPCMessage` in the source).  The relay
treats parsed messages as opaque; the only message it constructs itself is
the `notifications/cancelled` envelope, whose `params` carry a `reason`
string, so the embedding keeps exactly the fields the relay touches. -/
structure JSONRPCMessage where
  jsonrpc : String
  id : Option Nat := none
  method : Option String := none
  paramsReason : Option String := none
  deriving Repr, DecidableEq

/-- Raw data arriving at `handleProxyMessage` / `forwardToProxy`:
a string or an ArrayBuffer (modelled as a list of bytes). -/
inductive RawData where
  | text (s : String)
  | binary (bytes : List Nat)
  deriving Repr, DecidableEq

/-- Externally visible effects performed by the relay, in program order. -/
inductive Event where
  | transportSendAttempt (t : Nat) (msg : JSONRPCMessage)
  | transportCloseAttempt (t : Nat)
  | wsSendAttempt (h : Nat) (data : RawData)
  | logParseError
  | logSendError
  | logDeliverError
  | logWarnDrop (preview : String)
  deriving Repr, DecidableEq

/-- True exactly on a send attempt on the remote WebSocket handle. -/
def Event.isWsSend : Event → Bool
  | .wsSendAttempt _ _ => true
  | _ => false

/-- True exactly on a delivery attempt to a local transport. -/
def Event.isTransportSend : Event → Bool
  | .transportSendAttempt _ _ => true
  | _ => false

/-- True exactly on a close attempt on a local transport. -/
def Event.isTransportClose : Event → Bool
  | .transportCloseAttempt _ => true
  | _ => false

/-- The mutable fields of class `McpServerProxy`, plus the bookkeeping the
source performs through the host: `closeListeners` / `errorListeners`
record on which handles `setProxyConnection` has installed its close /
error listeners (the source never removes a listener), and
`onmessageInstalled` records on which transports `connect` has assigned
`onmessage` (assignments accumulate; the source never clears them). -/
structure ProxyState where
  proxyConnection : Option Nat
  connectedTransport : Option Nat
  isProxyConnected : Bool
  lastConnectionTime : Nat
  closeListeners : List Nat
  errorListeners : List Nat
  onmessageInstalled : List Nat
  deriving Repr, DecidableEq

/-- The state produced by `new McpServerProxy()`. -/
def initState : ProxyState :=
  { proxyConnection := none
    connectedTransport := none
    isProxyConnected := false
    lastConnectionTime := 0
    closeListeners := []
    errorListeners := []
    onmessageInstalled := [] }

/-- `setProxyConnection(webSocket)`.  `now` is the value `Date.now()` returns
on the non-null path. -/
def setProxyConnection (s : ProxyState) (webSocket : Option Nat) (now : Nat) :
    ProxyState :=
  match webSocket with
  | none =>
      { s with proxyConnection := none, isProxyConnected := false }
  | some h =>
      { s with
        proxyConnection := some h
        isProxyConnected := true
        lastConnectionTime := now
        closeListeners := s.closeListeners ++ [h]
        errorListeners := s.errorListeners ++ [h] }

/-- Body of the close listener installed by `setProxyConnection`: it sets
`isProxyConnected = false` and `proxyConnection = null` unconditionally,
whichever handle fired it. -/
def closeListenerBody (s : ProxyState) : ProxyState :=
  { s with isProxyConnected := false, proxyConnection := none }

/-- Body of the error listener installed by `setProxyConnection`. -/
def errorListenerBody (s : ProxyState) : ProxyState :=
  { s with isProxyConnected := false }

/-- The host fires the close event of handle `h`: every close listener ever
installed on `h` runs, each executing `closeListenerBody`. -/
def fireClose (s : ProxyState) (h : Nat) : ProxyState :=
  (s.closeListeners.filter (fun x => x == h)).foldl
    (fun st _ => closeListenerBody st) s

/-- The host fires the error event of handle `h`. -/
def fireError (s : ProxyState) (h : Nat) : ProxyState :=
  (s.errorListeners.filter (fun x => x == h)).foldl
    (fun st _ => errorListenerBody st) s

/-- `isConnected()`.  Returns the boolean result together with the state
after the opportunistic downgrade on lines 66-69 of the source.  The three
locals `hasConnection`, `isMarkedConnected`, `readyState` are read before
the downgrade, exactly as in the source; `rs` gives each handle its
readiness at the moment of the call (`readyState` is `none` when
`proxyConnection` is null, as `?.` yields undefined there). -/
def isConnected (s : ProxyState) (rs : Nat → Nat) : Bool × ProxyState :=
  let hasConnection := s.proxyConnection.isSome
  let isMarkedConnected := s.isProxyConnected
  let readyState : Option Nat := s.proxyConnection.map rs
  let s1 :=
    if hasConnection && (readyState == some 3 || readyState == some 2)
        && isMarkedConnected then
      { s with isProxyConnected := false }
    else s
  let actuallyConnected :=
    hasConnection && isMarkedConnected && !(readyState == some 3)
  (actuallyConnected, s1)

/-- The `messageStr` computation of `handleProxyMessage`: strings pass
through, ArrayBuffers go through `TextDecoder.decode` (embedded as `dec`). -/
def rawText (dec : List Nat → String) : RawData → String
  | .text str => str
  | .binary b => dec b

/-- `handleProxyMessage(data)`.  `dec` embeds `TextDecoder.decode`,
`parse` embeds `JSON.parse` (returning `none` when it throws, which the
enclosing `try` catches and logs).  A parsed message is delivered to the
connected transport when one exists; the delivery is fire-and-forget, its
rejection handler being `transportSendCatchHandler` below. -/
def handleProxyMessage (parse : String → Option JSONRPCMessage)
    (dec : List Nat → String) (s : ProxyState) (data : RawData) :
    ProxyState × List Event :=
  match parse (rawText dec data) with
  | none => (s, [Event.logParseError])
  | some message =>
      match s.connectedTransport with
      | some t => (s, [Event.transportSendAttempt t message])
      | none => (s, [])

/-- The `.catch` continuation attached to the transport delivery in
`handleProxyMessage`: it only logs; it runs against whatever state is
current when the delivery promise rejects. -/
def transportSendCatchHandler (s : ProxyState) : ProxyState × List Event :=
  (s, [Event.logDeliverError])

/-- The reason string of the synthetic cancellation notification built by
`connect`. -/
def disconnectReason : String :=
  "New client connected, previous connection terminated"

/-- The `disconnectMessage` envelope built by `connect`. -/
def disconnectMessage : JSONRPCMessage :=
  { jsonrpc := "2.0"
    method := some "notifications/cancelled"
    paramsReason := some disconnectReason }

/-- `connect(transport)`: the synchronous part.  When a transport is already
connected, the relay starts a send of `disconnectMessage` on it (first
component of the trace) and chains a `.catch`/`.finally` on that promise;
then, still synchronously, it installs the incoming transport as current and
assigns its `onmessage`.  The third component records whether a `.finally`
close callback was scheduled; that callback is `connectFinallyCallback`
below and runs only after this function has returned. -/
def connect (s : ProxyState) (transport : Nat) :
    ProxyState × List Event × Bool :=
  match s.connectedTransport with
  | some prev =>
      ({ s with
          connectedTransport := some transport
          onmessageInstalled := s.onmessageInstalled ++ [transport] },
       [Event.transportSendAttempt prev disconnectMessage], true)
  | none =>
      ({ s with
          connectedTransport := some transport
          onmessageInstalled := s.onmessageInstalled ++ [transport] },
       [], false)

/-- The `.catch` continuation of the `disconnectMessage` send in `connect`:
log only. -/
def connectCatchHandler (s : ProxyState) : ProxyState × List Event :=
  (s, [Event.logSendError])

/-- The `.finally` continuation of the `disconnectMessage` send in
`connect`.  The source executes `this.connectedTransport?.close?.()`:
it re-reads the field when the promise settles, so the close attempt
targets whatever transport is current at that moment. -/
def connectFinallyCallback (s : ProxyState) : List Event :=
  match s.connectedTransport with
  | some t => [Event.transportCloseAttempt t]
  | none => []

/-- `forwardToProxy(data)`.  `sendThrows` is whether the WebSocket `send`
call throws; the `catch` block then downgrades `isProxyConnected`.  The
warning branch logs a 100-character preview of string payloads and a fixed
summary for binary ones. -/
def payloadPreview : RawData → String
  | .text s => s.take 100 ++ "..."
  | .binary _ => "[Binary Data]"

/-- `forwardToProxy(data)` itself: consult `isConnected()` (which may
downgrade the flag), then either attempt the send or log-and-drop. -/
def forwardToProxy (s : ProxyState) (rs : Nat → Nat) (sendThrows : Bool)
    (data : RawData) : ProxyState × List Event :=
  let r := isConnected s rs
  let s1 := r.2
  if r.1 && s1.proxyConnection.isSome then
    match s1.proxyConnection with
    | some h =>
        if sendThrows then
          ({ s1 with isProxyConnected := false },
           [Event.wsSendAttempt h data, Event.logSendError])
        else
          (s1, [Event.wsSendAttempt h data])
    | none => (s1, [])
  else
    (s1, [Event.logWarnDrop (payloadPreview data)])

/-! ## Basic lemmas -/

theorem isConnected_fst (s : ProxyState) (rs : Nat → Nat) :
    (isConnected s rs).1
      = (s.proxyConnection.isSome && s.isProxyConnected
          && !(s.proxyConnection.map rs == some 3)) := rfl

theorem isConnected_snd_pc (s : ProxyState) (rs : Nat → Nat) :
    (isConnected s rs).2.proxyConnection = s.proxyConnection := by
  simp only [isConnected]
  split <;> rfl

theorem isConnected_snd_ct (s : ProxyState) (rs : Nat → Nat) :
    (isConnected s rs).2.connectedTransport = s.connectedTransport := by
  simp only [isConnected]
  split <;> rfl

theorem isConnected_snd_flag_false (s : ProxyState) (rs : Nat → Nat)
    (hflag : s.isProxyConnected = false) :
    (isConnected s rs).2 = s := by
  simp only [isConnected, hflag]
  simp

theorem isConnected_fst_of_flag_false (s : ProxyState) (rs : Nat → Nat)
    (hflag : s.isProxyConnected = false) :
    (isConnected s rs).1 = false := by
  rw [isConnected_fst, hflag]
  simp

theorem forwardToProxy_not_connected (s : ProxyState) (rs : Nat → Nat)
    (b : Bool) (d : RawData) (hc : (isConnected s rs).1 = false) :
    forwardToProxy s rs b d
      = ((isConnected s rs).2, [Event.logWarnDrop (payloadPreview d)]) := by
  simp only [forwardToProxy, hc, Bool.false_and, Bool.false_eq_true,
    if_false]

theorem forwardToProxy_connected_throws (s : ProxyState) (rs : Nat → Nat)
    (d : RawData) (h : Nat) (hpc : s.proxyConnection = some h)
    (hc : (isConnected s rs).1 = true) :
    forwardToProxy s rs true d
      = ({ (isConnected s rs).2 with isProxyConnected := false },
         [Event.wsSendAttempt h d, Event.logSendError]) := by
  have h2 : (isConnected s rs).2.proxyConnection = some h := by
    rw [isConnected_snd_pc, hpc]
  simp only [forwardToProxy, hc, h2, Option.isSome_some, Bool.and_self,
    if_true]

theorem isConnected_true_isSome (s : ProxyState) (rs : Nat → Nat)
    (hc : (isConnected s rs).1 = true) : s.proxyConnection.isSome = true := by
  rw [isConnected_fst] at hc
  exact (Bool.and_eq_true_iff.mp (Bool.and_eq_true_iff.mp hc).1).1

/-! ## Theorems -/

/-- C2: `isConnected()` returns exactly
`handle != null AND declaredConnected AND handle.readiness != CLOSED`
(all three read at call entry); the resulting declared flag is the old flag
downgraded exactly when the handle is non-null, the flag was true and the
readiness reports CLOSED (3) or CLOSING (2); no other field changes, and
the call is a total function (it never throws). -/
theorem isConnected_liveness_formula (s : ProxyState) (rs : Nat → Nat) :
    (isConnected s rs).1
      = (s.proxyConnection.isSome && s.isProxyConnected
          && !(s.proxyConnection.map rs == some 3))
    ∧ (isConnected s rs).2.isProxyConnected
      = (s.isProxyConnected
          && !(s.proxyConnection.isSome
                && (s.proxyConnection.map rs == some 3
                    || s.proxyConnection.map rs == some 2)))
    ∧ (isConnected s rs).2.proxyConnection = s.proxyConnection
    ∧ (isConnected s rs).2.connectedTransport = s.connectedTransport
    ∧ (isConnected s rs).2.lastConnectionTime = s.lastConnectionTime
    ∧ (isConnected s rs).2.closeListeners = s.closeListeners
    ∧ (isConnected s rs).2.errorListeners = s.errorListeners
    ∧ (isConnected s rs).2.onmessageInstalled = s.onmessageInstalled := by
  obtain ⟨pc, ct, ipc, lt, cl, el, om⟩ := s
  cases pc with
  | none => cases ipc <;> simp [isConnected]
  | some h =>
      cases ipc <;>
        simp only [isConnected, Option.map_some, Option.isSome_some,
          Bool.true_and, Bool.and_true, Bool.false_and, Bool.and_false,
          Bool.true_or, Bool.or_true, Bool.not_true, Bool.not_false,
          if_true, if_false] <;>
        by_cases h3 : rs h = 3 <;> by_cases h2 : rs h = 2 <;>
        simp_all

/-- C4: if the handle's readiness reports CLOSED while the declared flag is
still true, the very next `isConnected()` returns false and downgrades the
flag to false; any later `isConnected()` (no intervening `setConnection`,
the readiness now being arbitrary) again returns false and leaves the state
completely unchanged, so the correction is idempotent. -/
theorem isConnected_selfheal_idempotent (s : ProxyState) (rs rs2 : Nat → Nat)
    (h : Nat) (hconn : s.proxyConnection = some h) (hrs : rs h = 3)
    (hflag : s.isProxyConnected = true) :
    (isConnected s rs).1 = false
    ∧ (isConnected s rs).2.isProxyConnected = false
    ∧ isConnected (isConnected s rs).2 rs2
        = (false, (isConnected s rs).2) := by
  obtain ⟨pc, ct, ipc, lt, cl, el, om⟩ := s
  cases hconn
  cases hflag
  simp [isConnected, hrs]

/-- Witness for C4 at a concrete state and readiness probe. -/
theorem isConnected_selfheal_idempotent_witness :
    (isConnected
        { initState with proxyConnection := some 7, isProxyConnected := true }
        (fun _ => 3)).1 = false
    ∧ (isConnected
        { initState with proxyConnection := some 7, isProxyConnected := true }
        (fun _ => 3)).2.isProxyConnected = false
    ∧ isConnected
        (isConnected
          { initState with proxyConnection := some 7, isProxyConnected := true }
          (fun _ => 3)).2 (fun _ => 1)
        = (false,
           (isConnected
             { initState with proxyConnection := some 7, isProxyConnected := true }
             (fun _ => 3)).2) :=
  isConnected_selfheal_idempotent
    { initState with proxyConnection := some 7, isProxyConnected := true }
    (fun _ => 3) (fun _ => 1) 7 rfl rfl rfl

/-- C5: from any prior state, immediately after `setProxyConnection(null)`
the handle is null, the declared flag is false and `isConnected()` returns
false; a subsequent `forwardToProxy` performs no WebSocket send attempt
(whatever the readiness probe, throw behaviour and payload) and
`isConnected()` is still false afterwards. -/
theorem setConnection_null_disconnects (s : ProxyState) (n : Nat)
    (rs rs2 rs3 : Nat → Nat) (b : Bool) (d : RawData) :
    (setProxyConnection s none n).proxyConnection = none
    ∧ (setProxyConnection s none n).isProxyConnected = false
    ∧ (isConnected (setProxyConnection s none n) rs).1 = false
    ∧ ((forwardToProxy (setProxyConnection s none n) rs2 b d).2.filter
          Event.isWsSend) = []
    ∧ (isConnected (forwardToProxy (setProxyConnection s none n) rs2 b d).1
          rs3).1 = false := by
  obtain ⟨pc, ct, ipc, lt, cl, el, om⟩ := s
  simp [setProxyConnection, forwardToProxy, isConnected, Event.isWsSend]

/-- C6: when `isConnected()` reports true so that `forwardToProxy` reaches
the send and the send throws, exactly one WebSocket send attempt is made
(the message is not retried), the declared flag is downgraded to false, and
any subsequent `forwardToProxy` short-circuits without a send attempt. -/
theorem forward_send_failure_downgrades (s : ProxyState) (rs rs2 : Nat → Nat)
    (b : Bool) (d d2 : RawData) (hc : (isConnected s rs).1 = true) :
    ((forwardToProxy s rs true d).2.filter Event.isWsSend).length = 1
    ∧ (forwardToProxy s rs true d).1.isProxyConnected = false
    ∧ ((forwardToProxy (forwardToProxy s rs true d).1 rs2 b d2).2.filter
          Event.isWsSend) = [] := by
  obtain ⟨h, hpc⟩ := Option.isSome_iff_exists.mp (isConnected_true_isSome s rs hc)
  rw [forwardToProxy_connected_throws s rs d h hpc hc]
  refine ⟨by simp [Event.isWsSend], rfl, ?_⟩
  rw [forwardToProxy_not_connected _ rs2 b d2
    (isConnected_fst_of_flag_false _ rs2 rfl)]
  simp [Event.isWsSend]

/-- Witness for C6: open handle 7, send throws. -/
theorem forward_send_failure_downgrades_witness :
    ((forwardToProxy
        { initState with proxyConnection := some 7, isProxyConnected := true }
        (fun _ => 1) true (RawData.text "x")).2.filter
        Event.isWsSend).length = 1
    ∧ (forwardToProxy
        { initState with proxyConnection := some 7, isProxyConnected := true }
        (fun _ => 1) true (RawData.text "x")).1.isProxyConnected = false
    ∧ ((forwardToProxy
          (forwardToProxy
            { initState with proxyConnection := some 7, isProxyConnected := true }
            (fun _ => 1) true (RawData.text "x")).1
          (fun _ => 1) false (RawData.text "y")).2.filter
          Event.isWsSend) = [] :=
  forward_send_failure_downgrades
    { initState with proxyConnection := some 7, isProxyConnected := true }
    (fun _ => 1) (fun _ => 1) false (RawData.text "x") (RawData.text "y") rfl

/-- C7: when `isConnected()` reports false, `forwardToProxy` makes no
WebSocket send attempt, emits exactly one warning log carrying the
truncated payload preview (binary payloads summarised as a fixed string),
and drops the message; being a total function it never throws. -/
theorem forward_not_connected_drops (s : ProxyState) (rs : Nat → Nat)
    (b : Bool) (d : RawData) (hc : (isConnected s rs).1 = false) :
    (forwardToProxy s rs b d).2 = [Event.logWarnDrop (payloadPreview d)]
    ∧ ((forwardToProxy s rs b d).2.filter Event.isWsSend) = []
    ∧ (∀ bs, payloadPreview (RawData.binary bs) = "[Binary Data]") := by
  refine ⟨?_, ?_, fun bs => rfl⟩ <;>
    simp [forwardToProxy, hc, Event.isWsSend]

/-- Witness for C7: fresh relay, no connection. -/
theorem forward_not_connected_drops_witness :
    (forwardToProxy initState (fun _ => 1) false (RawData.text "x")).2
        = [Event.logWarnDrop (payloadPreview (RawData.text "x"))]
    ∧ ((forwardToProxy initState (fun _ => 1) false (RawData.text "x")).2.filter
          Event.isWsSend) = []
    ∧ (∀ bs, payloadPreview (RawData.binary bs) = "[Binary Data]") :=
  forward_not_connected_drops initState (fun _ => 1) false (RawData.text "x") rfl

/-- C8: `handleProxyMessage` never throws (it is a total function and the
equations below fix its result): on any input whose decoded text does not
parse, the state is unchanged, the parse error is recorded and no delivery
to any transport happens; on any well-formed input, if no current transport
exists the message is silently dropped with no error recorded. -/
theorem handleProxyMessage_contained (parse : String → Option JSONRPCMessage)
    (dec : List Nat → String) (s : ProxyState) (d : RawData) :
    (handleProxyMessage parse dec s d).1 = s
    ∧ (parse (rawText dec d) = none →
        handleProxyMessage parse dec s d = (s, [Event.logParseError]))
    ∧ ((handleProxyMessage parse dec s d).2.filter Event.isTransportSend
          = [] ∨ parse (rawText dec d) ≠ none)
    ∧ (∀ m, parse (rawText dec d) = some m → s.connectedTransport = none →
        handleProxyMessage parse dec s d = (s, [])) := by
  cases hp : parse (rawText dec d) with
  | none =>
      simp [handleProxyMessage, hp, Event.isTransportSend]
  | some m =>
      cases ht : s.connectedTransport <;>
        simp [handleProxyMessage, hp, ht]

/-- Witness for C8: a non-parsing text input on a fresh relay. -/
theorem handleProxyMessage_contained_witness :
    handleProxyMessage (fun _ => none) (fun _ => "") initState
        (RawData.text "not json")
      = (initState, [Event.logParseError]) :=
  (handleProxyMessage_contained (fun _ => none) (fun _ => "") initState
    (RawData.text "not json")).2.1 rfl

/-- C9: when a parsed envelope is delivered to the current transport and the
delivery fails, the rejection runs `transportSendCatchHandler`, which only
logs: the current transport reference, the remote handle and the declared
connection flag are all exactly as before the delivery. -/
theorem delivery_failure_is_per_message (parse : String → Option JSONRPCMessage)
    (dec : List Nat → String) (s : ProxyState) (d : RawData)
    (m : JSONRPCMessage) (t : Nat)
    (hp : parse (rawText dec d) = some m)
    (ht : s.connectedTransport = some t) :
    (handleProxyMessage parse dec s d).2
        = [Event.transportSendAttempt t m]
    ∧ (transportSendCatchHandler (handleProxyMessage parse dec s d).1).2
        = [Event.logDeliverError]
    ∧ (transportSendCatchHandler
        (handleProxyMessage parse dec s d).1).1.connectedTransport
        = s.connectedTransport
    ∧ (transportSendCatchHandler
        (handleProxyMessage parse dec s d).1).1.proxyConnection
        = s.proxyConnection
    ∧ (transportSendCatchHandler
        (handleProxyMessage parse dec s d).1).1.isProxyConnected
        = s.isProxyConnected := by
  simp [handleProxyMessage, hp, ht, transportSendCatchHandler]

/-- Witness for C9 at a concrete parse, transport and payload. -/
theorem delivery_failure_is_per_message_witness :
    (handleProxyMessage (fun _ => some { jsonrpc := "2.0" }) (fun _ => "")
        { initState with connectedTransport := some 1 }
        (RawData.text "{}")).2
        = [Event.transportSendAttempt 1 { jsonrpc := "2.0" }]
    ∧ (transportSendCatchHandler
        (handleProxyMessage (fun _ => some { jsonrpc := "2.0" }) (fun _ => "")
          { initState with connectedTransport := some 1 }
          (RawData.text "{}")).1).2
        = [Event.logDeliverError]
    ∧ (transportSendCatchHandler
        (handleProxyMessage (fun _ => some { jsonrpc := "2.0" }) (fun _ => "")
          { initState with connectedTransport := some 1 }
          (RawData.text "{}")).1).1.connectedTransport
        = ({ initState with
              connectedTransport := some 1 } : ProxyState).connectedTransport
    ∧ (transportSendCatchHandler
        (handleProxyMessage (fun _ => some { jsonrpc := "2.0" }) (fun _ => "")
          { initState with connectedTransport := some 1 }
          (RawData.text "{}")).1).1.proxyConnection
        = ({ initState with
              connectedTransport := some 1 } : ProxyState).proxyConnection
    ∧ (transportSendCatchHandler
        (handleProxyMessage (fun _ => some { jsonrpc := "2.0" }) (fun _ => "")
          { initState with connectedTransport := some 1 }
          (RawData.text "{}")).1).1.isProxyConnected
        = ({ initState with
              connectedTransport := some 1 } : ProxyState).isProxyConnected :=
  delivery_failure_is_per_message (fun _ => some { jsonrpc := "2.0" })
    (fun _ => "") { initState with connectedTransport := some 1 }
    (RawData.text "{}") { jsonrpc := "2.0" } 1 rfl rfl

theorem foldl_closeListenerBody_of_ne_nil (l : List Nat) (s : ProxyState)
    (hne : l ≠ []) :
    (l.foldl (fun st _ => closeListenerBody st) s).proxyConnection = none
    ∧ (l.foldl (fun st _ => closeListenerBody st) s).isProxyConnected
        = false := by
  induction l generalizing s with
  | nil => exact absurd rfl hne
  | cons x xs ih =>
      cases xs with
      | nil => simp [closeListenerBody]
      | cons y ys =>
          rw [List.foldl_cons]
          exact ih (closeListenerBody s) (by simp)

/-- C10: after `setProxyConnection(h1)` then `setProxyConnection(h2)`, the
close listener installed on `h1` is still registered; firing the close
event of the superseded handle `h1` runs its listener, which
unconditionally nulls the handle and clears the declared flag — thereby
disconnecting the currently attached `h2` — and `isConnected()` then
returns false under every readiness probe. -/
theorem stale_close_listener_disconnects (s : ProxyState)
    (h1 h2 n1 n2 : Nat) :
    (setProxyConnection (setProxyConnection s (some h1) n1) (some h2)
        n2).proxyConnection = some h2
    ∧ h1 ∈ (setProxyConnection (setProxyConnection s (some h1) n1) (some h2)
        n2).closeListeners
    ∧ (fireClose (setProxyConnection (setProxyConnection s (some h1) n1)
        (some h2) n2) h1).proxyConnection = none
    ∧ (fireClose (setProxyConnection (setProxyConnection s (some h1) n1)
        (some h2) n2) h1).isProxyConnected = false
    ∧ ∀ rs, (isConnected (fireClose (setProxyConnection
        (setProxyConnection s (some h1) n1) (some h2) n2) h1) rs).1
        = false := by
  have hmem : h1 ∈ ((setProxyConnection (setProxyConnection s (some h1) n1)
      (some h2) n2).closeListeners.filter (fun x => x == h1)) := by
    simp [setProxyConnection]
  have hkey := foldl_closeListenerBody_of_ne_nil _
    (setProxyConnection (setProxyConnection s (some h1) n1) (some h2) n2)
    (List.ne_nil_of_mem hmem)
  exact ⟨rfl, by simp [setProxyConnection], hkey.1, hkey.2,
    fun rs => isConnected_fst_of_flag_false _ rs hkey.2⟩

/-- C1, evaluated at the failing input: with transport 1 current, calling
`connect` with transport 2 makes exactly one `notifications/cancelled` send
attempt on transport 1 and installs transport 2 as current synchronously;
but the close scheduled in the `.finally` continuation, which can only run
after the synchronous part finished, re-reads the current-transport field
and therefore attempts to close transport 2 — the new transport — not
transport 1, and only after transport 2 became current.  This contradicts
the stated close-on-A-before-B-is-current behaviour (and the source's own
comment, which says the callback closes the previous transport). -/
theorem connect_close_targets_new_transport :
    (connect (connect initState 1).1 2).2.1
        = [Event.transportSendAttempt 1 disconnectMessage]
    ∧ disconnectMessage.method = some "notifications/cancelled"
    ∧ disconnectMessage.paramsReason = some disconnectReason
    ∧ disconnectReason ≠ ""
    ∧ (connect (connect initState 1).1 2).2.2 = true
    ∧ (connect (connect initState 1).1 2).1.connectedTransport = some 2
    ∧ connectFinallyCallback (connect (connect initState 1).1 2).1
        = [Event.transportCloseAttempt 2] :=
  ⟨rfl, rfl, rfl, by decide, rfl, rfl, rfl⟩

/-- C3, evaluated at the failing input: with transport 1 current, calling
`connect` again with the same transport 1 is not a no-op retire path — the
source only checks that a current transport exists, not that it differs —
so it attempts a `notifications/cancelled` send on transport 1 and
schedules the `.finally` close, whose attempt lands on transport 1 as
well.  The handler re-installation on transport 1 does still happen. -/
theorem connect_same_transport_not_noop :
    (connect (connect initState 1).1 1).2.1
        = [Event.transportSendAttempt 1 disconnectMessage]
    ∧ (connect (connect initState 1).1 1).2.2 = true
    ∧ connectFinallyCallback (connect (connect initState 1).1 1).1
        = [Event.transportCloseAttempt 1]
    ∧ (connect (connect initState 1).1 1).1.connectedTransport = some 1 :=
  ⟨rfl, rfl, rfl, rfl⟩

end McpProxy
